import Mathlib

/-!
Verification of the rimusic-convert export pipeline (src/main.rs).

The development shallowly embeds the program's data model and operations:

* the serde-decoded record types (`Track`, `Artist`, `Album`, `TrackItem`,
  `Playlist`, and the two page envelopes) become Lean structures;
* the HTTP transport is abstracted as a function `String → Nat × String`
  (URL to status code and body text), and serde decoding as a function
  `String → Except String ρ`;
* the two pagination loops (`SpotifyAPI::get_all_playlists`,
  `SpotifyAPI::get_playlist_tracks`) become fuel-indexed recursive
  functions returning an event trace (requests, sleeps, stderr prints)
  together with `Option (Except FetchError _)`, where `none` models fuel
  exhaustion (the source loop not having terminated yet);
* the CSV projection in `export_to_csv` becomes `trackRow` /
  `playlistRows` / `export_to_csv`, with the ambient clock value passed
  explicitly and the written files returned as data.
-/

namespace Rimusic

/-- Record `Artist` of src/main.rs. -/
structure Artist where
  uri : Option String
  name : Option String
deriving DecidableEq, Repr

/-- Record `Image` of src/main.rs. -/
structure Image where
  url : String
deriving DecidableEq, Repr

/-- Record `Album` of src/main.rs. -/
structure Album where
  uri : Option String
  name : Option String
  release_date : Option String
  artists : List Artist
  images : List Image
  disc_number : Option Nat
  track_number : Option Nat
deriving DecidableEq, Repr

/-- Record `Track` of src/main.rs. -/
structure Track where
  uri : Option String
  name : Option String
  artists : List Artist
  album : Album
  duration_ms : Option Nat
  popularity : Option Nat
  isrc : Option String
  preview_url : Option String
  explicit : Option Bool
deriving DecidableEq, Repr

/-- Record `TrackItem` of src/main.rs (`track` may be null). -/
structure TrackItem where
  track : Option Track
deriving DecidableEq, Repr

/-- Page envelope `PaginatedTrackResponse` of src/main.rs. -/
structure PaginatedTrackResponse where
  items : List TrackItem
  next : Option String
deriving DecidableEq, Repr

/-- Record `Owner` of src/main.rs. -/
structure Owner where
  display_name : String
deriving DecidableEq, Repr

/-- Record `Tracks` of src/main.rs (the playlist's track-collection href). -/
structure Tracks where
  href : String
deriving DecidableEq, Repr

/-- Record `Playlist` of src/main.rs. -/
structure Playlist where
  name : String
  owner : Owner
  tracks : Tracks
deriving DecidableEq, Repr

/-- Page envelope `PlaylistResponse` of src/main.rs. -/
structure PlaylistResponse where
  items : List Playlist
  next : Option String
deriving DecidableEq, Repr

/-- Rust `Vec<String>::join(sep)`: elements concatenated with `sep`
between consecutive elements. -/
def stringJoin (sep : String) : List String → String
  | [] => ""
  | [s] => s
  | s :: rest => s ++ sep ++ stringJoin sep rest

/-- Function `join_artist_uris` of src/main.rs: absent uris default to the empty
string, then joined with the separator. -/
def join_artist_uris (artists : List Artist) : String :=
  stringJoin ", " (artists.map (fun a => a.uri.getD ""))

/-- Function `join_artist_names` of src/main.rs. -/
def join_artist_names (artists : List Artist) : String :=
  stringJoin ", " (artists.map (fun a => a.name.getD ""))

/-- The 19-column header record written by `export_to_csv`
(src/main.rs lines 170-190). -/
def csvHeader : List String :=
  ["Track URI", "Track Name", "Artist URI(s)", "Artist Name(s)",
   "Album URI", "Album Name", "Album Artist URI(s)", "Album Artist Name(s)",
   "Album Release Date", "Album Image URL", "Disc Number", "Track Number",
   "Track Duration (ms)", "Track Preview URL", "Explicit", "Popularity",
   "ISRC", "Added By", "Added At"]

/-- One data record as written by `export_to_csv` for a present track
(src/main.rs lines 196-224); `owner_display_name` is
`playlist.owner.display_name` and `now` the value read from the ambient
clock at row-render time. -/
def trackRow (owner_display_name now : String) (track : Track) : List String :=
  [track.uri.getD "",
   track.name.getD "",
   join_artist_uris track.artists,
   join_artist_names track.artists,
   track.album.uri.getD "",
   track.album.name.getD "",
   join_artist_uris track.album.artists,
   join_artist_names track.album.artists,
   track.album.release_date.getD "Unknown",
   (match track.album.images.head? with
    | none => "No Image"
    | some img => img.url),
   toString (track.album.disc_number.getD 0),
   toString (track.album.track_number.getD 0),
   toString (track.duration_ms.getD 0),
   track.preview_url.getD "",
   toString (track.explicit.getD false),
   toString (track.popularity.getD 0),
   track.isrc.getD "",
   owner_display_name,
   now]

/-- The data records written for one playlist's track entries
(src/main.rs lines 194-226): entries with a null `track` are skipped. -/
def playlistRows (owner_display_name now : String) (entries : List TrackItem) :
    List (List String) :=
  entries.filterMap (fun ti => ti.track.map (trackRow owner_display_name now))

/-- Observable side effects of the fetch pipeline: an HTTP GET to a URL,
a `tokio::time::sleep` of a number of seconds, and an `eprintln` line. -/
inductive Event where
  | request : String → Event
  | sleepSecs : Nat → Event
  | eprint : String → Event
deriving DecidableEq, Repr

/-- Whether an event is an HTTP request. -/
def Event.isRequest : Event → Bool
  | Event.request _ => true
  | _ => false

/-- Whether an event is an `eprintln` diagnostic line. -/
def Event.isEprint : Event → Bool
  | Event.eprint _ => true
  | _ => false

/-- The sleep duration of an event, when it is a sleep. -/
def Event.sleepSecsOf : Event → Option Nat
  | Event.sleepSecs n => some n
  | _ => none

/-- The errors produced by the fetch layer: `requestError` models the
`format!("Failed request: status: body")` error for a non-success HTTP
status (it carries the status and the body), `decodeError` models the
propagated `serde_json::Error` (it carries the decoder's message). -/
inductive FetchError where
  | requestError : Nat → String → FetchError
  | decodeError : String → FetchError
deriving DecidableEq, Repr

/-- reqwest `StatusCode::is_success`: status in 200..=299. -/
def isSuccessStatus (s : Nat) : Bool :=
  decide (200 ≤ s) && decide (s < 300)

/-- Method `SpotifyAPI::get` of src/main.rs (lines 90-111): issue a GET (the
transport is `server : url ↦ (status, body)`), read the body, fail with
the request error on a non-success status (after printing the status and
body to stderr), otherwise decode (serde is `parse`); on decode failure
print the cause and the raw body to stderr and propagate the cause. -/
def SpotifyAPI.get {ρ : Type} (parse : String → Except String ρ)
    (server : String → Nat × String) (url : String) :
    List Event × Except FetchError ρ :=
  let status := (server url).1
  let body := (server url).2
  if isSuccessStatus status then
    match parse body with
    | Except.error e =>
        ([Event.request url, Event.eprint ("Deserialization error: " ++ e),
          Event.eprint ("Response body: " ++ body)],
         Except.error (FetchError.decodeError e))
    | Except.ok v => ([Event.request url], Except.ok v)
  else
    ([Event.request url, Event.eprint ("HTTP " ++ toString status ++ ": " ++ body)],
     Except.error (FetchError.requestError status body))

/-- Loop `while let Some(url) = next` loop of `SpotifyAPI::get_all_playlists`
(src/main.rs lines 113-128), fuel-indexed: each iteration calls
`SpotifyAPI.get`, extends the accumulator with the page's items, follows
the `next` cursor, and sleeps 2 seconds when another page follows.
`none` in the second component models running out of fuel. -/
def get_all_playlists_loop (parse : String → Except String PlaylistResponse)
    (server : String → Nat × String) :
    Nat → Option String → List Playlist →
    List Event × Option (Except FetchError (List Playlist))
  | _, none, acc => ([], some (Except.ok acc))
  | 0, some _, _ => ([], none)
  | fuel + 1, some url, acc =>
      let r := SpotifyAPI.get parse server url
      match r.2 with
      | Except.error e => (r.1, some (Except.error e))
      | Except.ok resp =>
          let d : List Event :=
            if resp.next.isSome then [Event.sleepSecs 2] else []
          let rest :=
            get_all_playlists_loop parse server fuel resp.next (acc ++ resp.items)
          (r.1 ++ (d ++ rest.1), rest.2)

/-- Method `SpotifyAPI::get_all_playlists` (src/main.rs lines 113-128), started
on the given URL with an empty accumulator. -/
def get_all_playlists (parse : String → Except String PlaylistResponse)
    (server : String → Nat × String) (fuel : Nat) (url : String) :
    List Event × Option (Except FetchError (List Playlist)) :=
  get_all_playlists_loop parse server fuel (some url) []

/-- Loop `while let Some(current_url) = next_url` of
`SpotifyAPI::get_playlist_tracks` (src/main.rs lines 130-160). The body
inlines the GET: non-success status prints to stderr and fails with the
request error; a decode failure propagates the serde error with `?`
WITHOUT printing anything; the loop sleeps 1 second when another page
follows. -/
def get_playlist_tracks_loop (parse : String → Except String PaginatedTrackResponse)
    (server : String → Nat × String) :
    Nat → Option String → List TrackItem →
    List Event × Option (Except FetchError (List TrackItem))
  | _, none, acc => ([], some (Except.ok acc))
  | 0, some _, _ => ([], none)
  | fuel + 1, some url, acc =>
      let status := (server url).1
      let body := (server url).2
      if isSuccessStatus status then
        match parse body with
        | Except.error e =>
            ([Event.request url], some (Except.error (FetchError.decodeError e)))
        | Except.ok resp =>
            let d : List Event :=
              if resp.next.isSome then [Event.sleepSecs 1] else []
            let rest :=
              get_playlist_tracks_loop parse server fuel resp.next (acc ++ resp.items)
            (Event.request url :: (d ++ rest.1), rest.2)
      else
        ([Event.request url, Event.eprint ("HTTP " ++ toString status ++ ": " ++ body)],
         some (Except.error (FetchError.requestError status body)))

/-- Method `SpotifyAPI::get_playlist_tracks` (src/main.rs lines 130-160),
started on the given URL with an empty accumulator. -/
def get_playlist_tracks (parse : String → Except String PaginatedTrackResponse)
    (server : String → Nat × String) (fuel : Nat) (url : String) :
    List Event × Option (Except FetchError (List TrackItem)) :=
  get_playlist_tracks_loop parse server fuel (some url) []

/-- Output file name for a playlist (src/main.rs line 167): `/` replaced
by `_`, `.csv` appended. -/
def fileNameOf (p : Playlist) : String :=
  (p.name.replace "/" "_") ++ ".csv"

/-- Function `export_to_csv` of src/main.rs (lines 163-233): for each playlist in
order, create its file and write the header, then fetch all its track
pages, then write one record per present track, then flush. The files
written (name and records, header included) are returned as data; a
fetch failure leaves the in-progress playlist's file with only its
header and aborts. `none` models a non-terminating track fetch. -/
def export_to_csv (parse : String → Except String PaginatedTrackResponse)
    (server : String → Nat × String) (fuel : Nat) (now : String) :
    List Playlist →
    List (String × List (List String)) × Option (Except FetchError Unit)
  | [] => ([], some (Except.ok ()))
  | p :: rest =>
      let r := get_playlist_tracks parse server fuel p.tracks.href
      match r.2 with
      | none => ([(fileNameOf p, [csvHeader])], none)
      | some (Except.error e) =>
          ([(fileNameOf p, [csvHeader])], some (Except.error e))
      | some (Except.ok ts) =>
          let next := export_to_csv parse server fuel now rest
          ((fileNameOf p, csvHeader :: playlistRows p.owner.display_name now ts)
             :: next.1,
           next.2)

/-- Data records `export_to_csv` produces for a playlist whose track
fetch succeeds (empty when it does not). -/
def okRowsOf (parse : String → Except String PaginatedTrackResponse)
    (server : String → Nat × String) (fuel : Nat) (now : String)
    (p : Playlist) : List (List String) :=
  match (get_playlist_tracks parse server fuel p.tracks.href).2 with
  | some (Except.ok ts) => playlistRows p.owner.display_name now ts
  | _ => []

/-- Pagination algorithm as the spec states it (§4.1), generic over the
item type: the page envelope is decoded by `parse` into
`(items, next cursor)`; a non-success status fails with the request
error, a decode failure is logged with the cause and raw body and fails
with the decode error; the accumulator is extended in response order and
the loop sleeps `delay` seconds exactly when another page follows. This
is the second definition of a refinement pair: the source fetchers are
compared against it. -/
def fetch_all_spec {ι : Type} (parse : String → Except String (List ι × Option String))
    (delay : Nat) (server : String → Nat × String) :
    Nat → Option String → List ι →
    List Event × Option (Except FetchError (List ι))
  | _, none, acc => ([], some (Except.ok acc))
  | 0, some _, _ => ([], none)
  | fuel + 1, some url, acc =>
      let status := (server url).1
      let body := (server url).2
      if isSuccessStatus status then
        match parse body with
        | Except.error e =>
            ([Event.request url, Event.eprint ("Deserialization error: " ++ e),
              Event.eprint ("Response body: " ++ body)],
             some (Except.error (FetchError.decodeError e)))
        | Except.ok page =>
            let d : List Event :=
              if page.2.isSome then [Event.sleepSecs delay] else []
            let rest := fetch_all_spec parse delay server fuel page.2 (acc ++ page.1)
            (Event.request url :: (d ++ rest.1), rest.2)
      else
        ([Event.request url, Event.eprint ("HTTP " ++ toString status ++ ": " ++ body)],
         some (Except.error (FetchError.requestError status body)))

/-- A finite page sequence for the playlist fetcher: starting at `url`,
the server answers each URL with a success status and a body that
decodes to the corresponding page, each page's `next` cursor names the
following URL in `tl`, and the last page's cursor is absent. -/
inductive ChainP (parse : String → Except String PlaylistResponse)
    (server : String → Nat × String) :
    String → List String → List PlaylistResponse → Prop
  | last (url : String) (p : PlaylistResponse)
      (hs : isSuccessStatus (server url).1 = true)
      (hp : parse (server url).2 = Except.ok p)
      (hn : p.next = none) :
      ChainP parse server url [] [p]
  | cons (url next_url : String) (tl : List String) (p : PlaylistResponse)
      (ps : List PlaylistResponse)
      (hs : isSuccessStatus (server url).1 = true)
      (hp : parse (server url).2 = Except.ok p)
      (hn : p.next = some next_url)
      (hrest : ChainP parse server next_url tl ps) :
      ChainP parse server url (next_url :: tl) (p :: ps)

/-- A finite page sequence for the track fetcher, as in `ChainP`. -/
inductive ChainT (parse : String → Except String PaginatedTrackResponse)
    (server : String → Nat × String) :
    String → List String → List PaginatedTrackResponse → Prop
  | last (url : String) (p : PaginatedTrackResponse)
      (hs : isSuccessStatus (server url).1 = true)
      (hp : parse (server url).2 = Except.ok p)
      (hn : p.next = none) :
      ChainT parse server url [] [p]
  | cons (url next_url : String) (tl : List String) (p : PaginatedTrackResponse)
      (ps : List PaginatedTrackResponse)
      (hs : isSuccessStatus (server url).1 = true)
      (hp : parse (server url).2 = Except.ok p)
      (hn : p.next = some next_url)
      (hrest : ChainT parse server next_url tl ps) :
      ChainT parse server url (next_url :: tl) (p :: ps)

/-- The event trace a successful N-page run produces: a request per
visited URL with a sleep of `delay` seconds between consecutive
requests and none after the last. -/
def chainTrace (delay : Nat) (url : String) : List String → List Event
  | [] => [Event.request url]
  | u :: tl => Event.request url :: Event.sleepSecs delay :: chainTrace delay u tl

/-- Whether the final event of a trace is a request. -/
def lastIsRequest : List Event → Bool
  | [] => false
  | [e] => e.isRequest
  | _ :: e :: rest => lastIsRequest (e :: rest)

/-- Number of occurrences of the two-character separator `", "` in a
character list (the separator cannot overlap itself, so left-to-right
consuming matching counts exactly the occurrences). -/
def countSepAux : List Char → Nat
  | [] => 0
  | [_] => 0
  | a :: b :: rest =>
      if a = ',' ∧ b = ' ' then countSepAux rest + 1
      else countSepAux (b :: rest)

/-- Number of occurrences of `", "` in a string. -/
def countSep (s : String) : Nat :=
  countSepAux s.data

/-- Concrete playlist used by witnesses (track pages served at t0). -/
def plA : Playlist :=
  { name := "A", owner := { display_name := "alice" }, tracks := { href := "t0" } }

/-- Concrete playlist whose track URL answers 429. -/
def plB : Playlist :=
  { name := "B/1", owner := { display_name := "bob" }, tracks := { href := "r429" } }

/-- Concrete playlist never reached by the failing export run. -/
def plC : Playlist :=
  { name := "C", owner := { display_name := "carol" }, tracks := { href := "t0" } }

/-- Concrete track entry with a null track. -/
def ti1 : TrackItem := { track := none }

/-- First concrete playlist page. -/
def pageP0 : PlaylistResponse := { items := [plA], next := some "p1" }

/-- Last concrete playlist page. -/
def pageP1 : PlaylistResponse := { items := [], next := none }

/-- First concrete track page. -/
def pageT0 : PaginatedTrackResponse := { items := [ti1], next := some "t1" }

/-- Last concrete track page. -/
def pageT1 : PaginatedTrackResponse := { items := [], next := none }

/-- Concrete transport used by witnesses: two chained playlist pages at
p0/p1, two chained track pages at t0/t1, an undecodable success body at
d0, a rate-limited URL at r429, everything else a 404. -/
def serverW : String → Nat × String
  | "p0" => (200, "bp0")
  | "p1" => (200, "bp1")
  | "t0" => (200, "bt0")
  | "t1" => (200, "bt1")
  | "d0" => (200, "junk")
  | "r429" => (429, "rate limited")
  | _ => (404, "not found")

/-- Concrete playlist-page decoder used by witnesses. -/
def parsePW : String → Except String PlaylistResponse
  | "bp0" => Except.ok pageP0
  | "bp1" => Except.ok pageP1
  | _ => Except.error "bad"

/-- Concrete track-page decoder used by witnesses. -/
def parseTW : String → Except String PaginatedTrackResponse
  | "bt0" => Except.ok pageT0
  | "bt1" => Except.ok pageT1
  | _ => Except.error "bad"

/-- Concrete artist list used by the separator-count witness. -/
def twoArtists : List Artist :=
  [{ uri := some "a", name := some "Alice" }, { uri := none, name := none }]

theorem chainP_length {parse server url tl pages}
    (h : ChainP parse server url tl pages) : pages.length = tl.length + 1 := by
  induction h with
  | last => rfl
  | cons _ _ _ _ _ _ _ _ _ ih => simpa using ih

theorem chainT_length {parse server url tl pages}
    (h : ChainT parse server url tl pages) : pages.length = tl.length + 1 := by
  induction h with
  | last => rfl
  | cons _ _ _ _ _ _ _ _ _ ih => simpa using ih

theorem chainTrace_countP_request (delay : Nat) (url : String) (tl : List String) :
    List.countP Event.isRequest (chainTrace delay url tl) = tl.length + 1 := by
  induction tl generalizing url with
  | nil => simp [chainTrace, List.countP_cons, Event.isRequest]
  | cons u tl ih =>
      simp [chainTrace, List.countP_cons, Event.isRequest, ih u]

theorem chainTrace_sleeps (delay : Nat) (url : String) (tl : List String) :
    List.filterMap Event.sleepSecsOf (chainTrace delay url tl) =
      List.replicate tl.length delay := by
  induction tl generalizing url with
  | nil => simp [chainTrace, Event.sleepSecsOf]
  | cons u tl ih =>
      simp [chainTrace, Event.sleepSecsOf, ih u, List.replicate]

theorem chainTrace_ne_nil (delay : Nat) (url : String) (tl : List String) :
    chainTrace delay url tl ≠ [] := by
  cases tl <;> simp [chainTrace]

theorem lastIsRequest_cons_of_ne_nil (x : Event) (l : List Event) (h : l ≠ []) :
    lastIsRequest (x :: l) = lastIsRequest l := by
  cases l with
  | nil => exact absurd rfl h
  | cons e rest => simp [lastIsRequest]

theorem chainTrace_last_request (delay : Nat) (url : String) (tl : List String) :
    lastIsRequest (chainTrace delay url tl) = true := by
  induction tl generalizing url with
  | nil => simp [chainTrace, lastIsRequest, Event.isRequest]
  | cons u tl ih =>
      rw [chainTrace,
        lastIsRequest_cons_of_ne_nil _ _ (by simp),
        lastIsRequest_cons_of_ne_nil _ _ (chainTrace_ne_nil delay u tl)]
      exact ih u

theorem get_all_playlists_loop_chain {parse : String → Except String PlaylistResponse}
    {server : String → Nat × String} {url : String} {tl : List String}
    {pages : List PlaylistResponse}
    (h : ChainP parse server url tl pages) :
    ∀ fuel, pages.length ≤ fuel → ∀ acc,
      get_all_playlists_loop parse server fuel (some url) acc =
        (chainTrace 2 url tl,
         some (Except.ok (acc ++ (pages.map PlaylistResponse.items).flatten))) := by
  induction h with
  | last url p hs hp hn =>
      intro fuel hfuel acc
      cases fuel with
      | zero => simp at hfuel
      | succ f =>
          simp [get_all_playlists_loop, SpotifyAPI.get, hs, hp, hn, chainTrace]
  | cons url nu tl p ps hs hp hn hrest ih =>
      intro fuel hfuel acc
      cases fuel with
      | zero => simp at hfuel
      | succ f =>
          have hf : ps.length ≤ f := by simp at hfuel; omega
          simp [get_all_playlists_loop, SpotifyAPI.get, hs, hp, hn, chainTrace,
            ih f hf, List.append_assoc]

theorem get_playlist_tracks_loop_chain
    {parse : String → Except String PaginatedTrackResponse}
    {server : String → Nat × String} {url : String} {tl : List String}
    {pages : List PaginatedTrackResponse}
    (h : ChainT parse server url tl pages) :
    ∀ fuel, pages.length ≤ fuel → ∀ acc,
      get_playlist_tracks_loop parse server fuel (some url) acc =
        (chainTrace 1 url tl,
         some (Except.ok (acc ++ (pages.map PaginatedTrackResponse.items).flatten))) := by
  induction h with
  | last url p hs hp hn =>
      intro fuel hfuel acc
      cases fuel with
      | zero => simp at hfuel
      | succ f =>
          simp [get_playlist_tracks_loop, hs, hp, hn, chainTrace]
  | cons url nu tl p ps hs hp hn hrest ih =>
      intro fuel hfuel acc
      cases fuel with
      | zero => simp at hfuel
      | succ f =>
          have hf : ps.length ≤ f := by simp at hfuel; omega
          simp [get_playlist_tracks_loop, hs, hp, hn, chainTrace,
            ih f hf, List.append_assoc]

theorem stringDataAppend (s t : String) : (s ++ t).data = s.data ++ t.data := by
  cases s
  cases t
  rfl

theorem countSepAux_append_sep (l2 : List Char) :
    ∀ l1, countSepAux l1 = 0 →
      countSepAux (l1 ++ ',' :: ' ' :: l2) = countSepAux l2 + 1 := by
  intro l1
  induction l1 with
  | nil => intro _; simp [countSepAux]
  | cons c tl ih =>
      intro h
      cases tl with
      | nil =>
          have hc : ¬(c = ',' ∧ ',' = ' ') := by
            rintro ⟨_, hcc⟩
            exact absurd hcc (by decide)
          simp [countSepAux, hc]
      | cons c2 tl2 =>
          by_cases hc : c = ',' ∧ c2 = ' '
          · rw [countSepAux, if_pos hc] at h
            omega
          · rw [countSepAux, if_neg hc] at h
            have := ih h
            simpa [countSepAux, hc] using this

theorem countSep_stringJoin :
    ∀ segs : List String, segs ≠ [] → (∀ s ∈ segs, countSep s = 0) →
      countSep (stringJoin ", " segs) = segs.length - 1 := by
  intro segs
  induction segs with
  | nil => intro h; exact absurd rfl h
  | cons s tl ih =>
      intro _ hall
      cases tl with
      | nil => simpa [stringJoin] using hall s (by simp)
      | cons s2 tl2 =>
          have h1 : countSep s = 0 := hall s (by simp)
          have h2 : ∀ x ∈ s2 :: tl2, countSep x = 0 := by
            intro x hx
            exact hall x (by simp [hx])
          have hrec := ih (by simp) h2
          have hdata :
              (stringJoin ", " (s :: s2 :: tl2)).data =
                s.data ++ ',' :: ' ' :: (stringJoin ", " (s2 :: tl2)).data := by
            have hj : stringJoin ", " (s :: s2 :: tl2) =
                s ++ ", " ++ stringJoin ", " (s2 :: tl2) := rfl
            rw [hj, stringDataAppend, stringDataAppend]
            simp
          rw [countSep, hdata, countSepAux_append_sep _ _ h1]
          rw [countSep] at hrec
          rw [hrec]
          simp

theorem get_all_playlists_loop_spec (parse : String → Except String PlaylistResponse)
    (server : String → Nat × String) :
    ∀ fuel next acc,
      (get_all_playlists_loop parse server fuel next acc).2 =
        (fetch_all_spec
          (fun s => Except.map (fun r => (r.items, r.next)) (parse s))
          2 server fuel next acc).2 := by
  intro fuel
  induction fuel with
  | zero =>
      intro next acc
      cases next <;> simp [get_all_playlists_loop, fetch_all_spec]
  | succ f ih =>
      intro next acc
      cases next with
      | none => simp [get_all_playlists_loop, fetch_all_spec]
      | some url =>
          by_cases hs : isSuccessStatus (server url).1
          · cases hp : parse (server url).2 with
            | error e =>
                simp [get_all_playlists_loop, fetch_all_spec, SpotifyAPI.get,
                  hs, hp, Except.map]
            | ok r =>
                simp [get_all_playlists_loop, fetch_all_spec, SpotifyAPI.get,
                  hs, hp, Except.map, ih]
          · simp [get_all_playlists_loop, fetch_all_spec, SpotifyAPI.get, hs]

theorem get_playlist_tracks_loop_spec
    (parse : String → Except String PaginatedTrackResponse)
    (server : String → Nat × String) :
    ∀ fuel next acc,
      (get_playlist_tracks_loop parse server fuel next acc).2 =
        (fetch_all_spec
          (fun s => Except.map (fun r => (r.items, r.next)) (parse s))
          1 server fuel next acc).2 := by
  intro fuel
  induction fuel with
  | zero =>
      intro next acc
      cases next <;> simp [get_playlist_tracks_loop, fetch_all_spec]
  | succ f ih =>
      intro next acc
      cases next with
      | none => simp [get_playlist_tracks_loop, fetch_all_spec]
      | some url =>
          by_cases hs : isSuccessStatus (server url).1
          · cases hp : parse (server url).2 with
            | error e =>
                simp [get_playlist_tracks_loop, fetch_all_spec, hs, hp, Except.map]
            | ok r =>
                simp [get_playlist_tracks_loop, fetch_all_spec, hs, hp,
                  Except.map, ih]
          · simp [get_playlist_tracks_loop, fetch_all_spec, hs]

theorem chainPW : ChainP parsePW serverW "p0" ["p1"] [pageP0, pageP1] := by
  refine ChainP.cons "p0" "p1" [] pageP0 [pageP1] (by decide) rfl rfl ?_
  exact ChainP.last "p1" pageP1 (by decide) rfl rfl

theorem chainTW : ChainT parseTW serverW "t0" ["t1"] [pageT0, pageT1] := by
  refine ChainT.cons "t0" "t1" [] pageT0 [pageT1] (by decide) rfl rfl ?_
  exact ChainT.last "t1" pageT1 (by decide) rfl rfl

/-- C2: a track all of whose optional fields are absent projects to a row
in which every optional-string field (uri, name, album uri, album name,
preview_url, isrc) is the empty string, release_date is "Unknown", the
numeric fields disc_number, track_number, duration_ms and popularity
render as "0", explicit renders as "false", and the album-image column
is "No Image" when album.images is empty. -/
theorem default_substitution (owner now : String)
    (artists albumArtists : List Artist) :
    trackRow owner now
      { uri := none, name := none, artists := artists,
        album := { uri := none, name := none, release_date := none,
                   artists := albumArtists, images := [],
                   disc_number := none, track_number := none },
        duration_ms := none, popularity := none, isrc := none,
        preview_url := none, explicit := none } =
      ["", "", join_artist_uris artists, join_artist_names artists, "", "",
       join_artist_uris albumArtists, join_artist_names albumArtists,
       "Unknown", "No Image", "0", "0", "0", "", "false", "0", "",
       owner, now] := by
  simp [trackRow]
  exact ⟨rfl, rfl, rfl⟩

/-- C3: an entry whose track is absent contributes no output row and
raises no error, and the number of data rows emitted equals the number
of entries with a present track. -/
theorem null_track_skip (owner now : String) (entries : List TrackItem) :
    playlistRows owner now ({ track := none } :: entries) =
      playlistRows owner now entries ∧
    (playlistRows owner now entries).length =
      List.countP (fun ti => ti.track.isSome) entries := by
  constructor
  · simp [playlistRows]
  · induction entries with
    | nil => simp [playlistRows]
    | cons e tl ih =>
        cases ht : e.track with
        | none => simpa [playlistRows, List.countP_cons, ht] using ih
        | some t => simpa [playlistRows, List.countP_cons, ht] using ih

/-- C7: the multi-valued artist fields of track.artists and of
track.album.artists are each independently joined with the literal
separator ", " into a URI-join string (column 2, resp. 6) and a
name-join string (column 3, resp. 7); two artists a1/Alice and a2/Bob
project to "a1, a2" and "Alice, Bob". -/
theorem artist_join (owner now : String) (t : Track) :
    (trackRow owner now t)[2]? = some (join_artist_uris t.artists) ∧
    (trackRow owner now t)[3]? = some (join_artist_names t.artists) ∧
    (trackRow owner now t)[6]? = some (join_artist_uris t.album.artists) ∧
    (trackRow owner now t)[7]? = some (join_artist_names t.album.artists) ∧
    join_artist_uris [{ uri := some "a1", name := some "Alice" },
                      { uri := some "a2", name := some "Bob" }] = "a1, a2" ∧
    join_artist_names [{ uri := some "a1", name := some "Alice" },
                       { uri := some "a2", name := some "Bob" }] = "Alice, Bob" :=
  ⟨rfl, rfl, rfl, rfl, rfl, rfl⟩

/-- C10 counterexample: the claim "for a list of n artists the joined
string contains exactly n-1 occurrences of the separator regardless of
absent uri/name fields" fails for a single artist whose uri itself
contains the separator: the join of that one-element list contains one
occurrence of ", ", not zero. -/
theorem sep_count_counterexample :
    ¬ (countSep (join_artist_uris [{ uri := some "x, y", name := none }]) =
        ([{ uri := some "x, y", name := none }] : List Artist).length - 1) := by
  decide

/-- C10 amended: the URI-join and name-join of the empty list is the
empty string; for a nonempty list of n artists none of whose present
uri/name fields contains the separator ", ", the joined string contains
exactly n-1 occurrences of ", " (an absent field contributes an empty
segment, so two fully-anonymous artists render as ", "); an absent
optional string is indistinguishable in the output from a present empty
string. -/
theorem artist_join_sep_count (artists : List Artist)
    (hu : ∀ a ∈ artists, countSep (a.uri.getD "") = 0)
    (hn : ∀ a ∈ artists, countSep (a.name.getD "") = 0) :
    join_artist_uris [] = "" ∧ join_artist_names [] = "" ∧
    (artists ≠ [] →
      countSep (join_artist_uris artists) = artists.length - 1 ∧
      countSep (join_artist_names artists) = artists.length - 1) ∧
    join_artist_uris [{ uri := none, name := none },
                      { uri := none, name := none }] = ", " ∧
    join_artist_names [{ uri := none, name := none },
                       { uri := none, name := none }] = ", " ∧
    join_artist_uris ({ uri := some "", name := none } :: artists) =
      join_artist_uris ({ uri := none, name := none } :: artists) ∧
    join_artist_names ({ uri := none, name := some "" } :: artists) =
      join_artist_names ({ uri := none, name := none } :: artists) := by
  refine ⟨rfl, rfl, ?_, rfl, rfl, rfl, rfl⟩
  intro hne
  constructor
  · have h := countSep_stringJoin (artists.map (fun a => a.uri.getD ""))
      (by simpa using hne)
      (by
        intro s hs
        obtain ⟨a, ha, rfl⟩ := List.mem_map.mp hs
        exact hu a ha)
    simpa [join_artist_uris] using h
  · have h := countSep_stringJoin (artists.map (fun a => a.name.getD ""))
      (by simpa using hne)
      (by
        intro s hs
        obtain ⟨a, ha, rfl⟩ := List.mem_map.mp hs
        exact hn a ha)
    simpa [join_artist_names] using h

theorem artist_join_sep_count_witness :
    (∀ a ∈ twoArtists, countSep (a.uri.getD "") = 0) ∧
    (∀ a ∈ twoArtists, countSep (a.name.getD "") = 0) ∧
    countSep (join_artist_uris twoArtists) = twoArtists.length - 1 ∧
    countSep (join_artist_names twoArtists) = twoArtists.length - 1 := by
  have h := (artist_join_sep_count twoArtists (by decide) (by decide)).2.2.1
    (by decide)
  exact ⟨by decide, by decide, h.1, h.2⟩

/-- C4: a page fetch whose HTTP status is not in the success range fails
with the request error carrying both the status and the response body,
performs no retry (the returned trace holds exactly the one request and
the diagnostic line), and returns immediately in all three fetch paths
(`SpotifyAPI::get` and both loops). -/
theorem http_error_propagates
    (parseP : String → Except String PlaylistResponse)
    (parseT : String → Except String PaginatedTrackResponse)
    (server : String → Nat × String) (url : String) (fuelP fuelT : Nat)
    (accP : List Playlist) (accT : List TrackItem)
    (h : isSuccessStatus (server url).1 = false) :
    SpotifyAPI.get parseP server url =
      ([Event.request url,
        Event.eprint ("HTTP " ++ toString (server url).1 ++ ": " ++ (server url).2)],
       Except.error (FetchError.requestError (server url).1 (server url).2)) ∧
    get_all_playlists_loop parseP server (fuelP + 1) (some url) accP =
      ([Event.request url,
        Event.eprint ("HTTP " ++ toString (server url).1 ++ ": " ++ (server url).2)],
       some (Except.error (FetchError.requestError (server url).1 (server url).2))) ∧
    get_playlist_tracks_loop parseT server (fuelT + 1) (some url) accT =
      ([Event.request url,
        Event.eprint ("HTTP " ++ toString (server url).1 ++ ": " ++ (server url).2)],
       some (Except.error (FetchError.requestError (server url).1 (server url).2))) := by
  refine ⟨?_, ?_, ?_⟩ <;>
    simp [SpotifyAPI.get, get_all_playlists_loop, get_playlist_tracks_loop, h]

theorem http_error_propagates_witness :
    isSuccessStatus (serverW "zzz").1 = false ∧
    get_playlist_tracks_loop parseTW serverW 1 (some "zzz") [] =
      ([Event.request "zzz",
        Event.eprint ("HTTP " ++ toString (serverW "zzz").1 ++ ": " ++ (serverW "zzz").2)],
       some (Except.error
         (FetchError.requestError (serverW "zzz").1 (serverW "zzz").2))) :=
  ⟨by decide,
   (http_error_propagates parsePW parseTW serverW "zzz" 0 0 [] [] (by decide)).2.2⟩

/-- C5 counterexample: for the per-playlist track fetch, a page whose
body fails to decode produces the decode error but emits NOTHING to the
error-reporting channel (the trace holds no eprint event), refuting the
claim that the raw body is emitted before propagation for both fetches. -/
theorem decode_diag_counterexample :
    (get_playlist_tracks parseTW serverW 1 "d0").2 =
      some (Except.error (FetchError.decodeError "bad")) ∧
    List.countP Event.isEprint (get_playlist_tracks parseTW serverW 1 "d0").1 = 0 := by
  constructor
  · rfl
  · rfl

/-- C5 amended: a page fetch whose body fails to parse fails with a
decode error carrying the cause; the playlist fetch (through
`SpotifyAPI::get`) emits the cause and the raw response body to the
error-reporting channel before propagation, while the per-playlist
track fetch propagates the same decode error without emitting anything. -/
theorem decode_error_amended
    (parseP : String → Except String PlaylistResponse)
    (parseT : String → Except String PaginatedTrackResponse)
    (server : String → Nat × String) (url : String) (e : String)
    (fuelP fuelT : Nat) (accP : List Playlist) (accT : List TrackItem)
    (hs : isSuccessStatus (server url).1 = true)
    (hP : parseP (server url).2 = Except.error e)
    (hT : parseT (server url).2 = Except.error e) :
    SpotifyAPI.get parseP server url =
      ([Event.request url, Event.eprint ("Deserialization error: " ++ e),
        Event.eprint ("Response body: " ++ (server url).2)],
       Except.error (FetchError.decodeError e)) ∧
    get_all_playlists_loop parseP server (fuelP + 1) (some url) accP =
      ([Event.request url, Event.eprint ("Deserialization error: " ++ e),
        Event.eprint ("Response body: " ++ (server url).2)],
       some (Except.error (FetchError.decodeError e))) ∧
    get_playlist_tracks_loop parseT server (fuelT + 1) (some url) accT =
      ([Event.request url], some (Except.error (FetchError.decodeError e))) := by
  refine ⟨?_, ?_, ?_⟩ <;>
    simp [SpotifyAPI.get, get_all_playlists_loop, get_playlist_tracks_loop,
      hs, hP, hT]

theorem decode_error_amended_witness :
    isSuccessStatus (serverW "d0").1 = true ∧
    parsePW (serverW "d0").2 = Except.error "bad" ∧
    parseTW (serverW "d0").2 = Except.error "bad" ∧
    get_playlist_tracks_loop parseTW serverW 1 (some "d0") [] =
      ([Event.request "d0"], some (Except.error (FetchError.decodeError "bad"))) :=
  ⟨by decide, rfl, rfl,
   (decode_error_amended parsePW parseTW serverW "d0" "bad" 0 0 [] []
     (by decide) rfl rfl).2.2⟩

/-- C1: for a finite page sequence of length N whose last page has an
absent next cursor, each paginated fetch terminates and returns exactly
the concatenation of all N pages' items, in page-visitation order with
each page's items in response order, performing exactly N requests. -/
theorem pagination_fetch_all
    (parseP : String → Except String PlaylistResponse)
    (parseT : String → Except String PaginatedTrackResponse)
    (server : String → Nat × String) (urlP urlT : String)
    (tlP tlT : List String) (pagesP : List PlaylistResponse)
    (pagesT : List PaginatedTrackResponse) (fuelP fuelT : Nat)
    (hP : ChainP parseP server urlP tlP pagesP) (hfP : pagesP.length ≤ fuelP)
    (hT : ChainT parseT server urlT tlT pagesT) (hfT : pagesT.length ≤ fuelT) :
    (get_all_playlists parseP server fuelP urlP).2 =
      some (Except.ok ((pagesP.map PlaylistResponse.items).flatten)) ∧
    List.countP Event.isRequest (get_all_playlists parseP server fuelP urlP).1 =
      pagesP.length ∧
    (get_playlist_tracks parseT server fuelT urlT).2 =
      some (Except.ok ((pagesT.map PaginatedTrackResponse.items).flatten)) ∧
    List.countP Event.isRequest (get_playlist_tracks parseT server fuelT urlT).1 =
      pagesT.length := by
  have e1 := get_all_playlists_loop_chain hP fuelP hfP []
  have e2 := get_playlist_tracks_loop_chain hT fuelT hfT []
  unfold get_all_playlists get_playlist_tracks
  rw [e1, e2]
  refine ⟨by simp, ?_, by simp, ?_⟩
  · simp [chainTrace_countP_request, chainP_length hP]
  · simp [chainTrace_countP_request, chainT_length hT]

theorem pagination_fetch_all_witness :
    ([pageP0, pageP1] : List PlaylistResponse).length ≤ 2 ∧
    ([pageT0, pageT1] : List PaginatedTrackResponse).length ≤ 2 ∧
    (get_all_playlists parsePW serverW 2 "p0").2 =
      some (Except.ok (([pageP0, pageP1].map PlaylistResponse.items).flatten)) ∧
    (get_playlist_tracks parseTW serverW 2 "t0").2 =
      some (Except.ok (([pageT0, pageT1].map PaginatedTrackResponse.items).flatten)) := by
  have h := pagination_fetch_all parsePW parseTW serverW "p0" "t0" ["p1"] ["t1"]
    [pageP0, pageP1] [pageT0, pageT1] 2 2 chainPW (by decide) chainTW (by decide)
  exact ⟨by decide, by decide, h.1, h.2.2.1⟩

/-- C8: over an N-page run, a fixed sleep occurs between two consecutive
page fetches exactly when another page follows: the trace holds exactly
N-1 sleeps, each of 2 seconds for the playlist collection and 1 second
for track collections, and the trace never ends in a sleep. -/
theorem rate_limit_delays
    (parseP : String → Except String PlaylistResponse)
    (parseT : String → Except String PaginatedTrackResponse)
    (server : String → Nat × String) (urlP urlT : String)
    (tlP tlT : List String) (pagesP : List PlaylistResponse)
    (pagesT : List PaginatedTrackResponse) (fuelP fuelT : Nat)
    (hP : ChainP parseP server urlP tlP pagesP) (hfP : pagesP.length ≤ fuelP)
    (hT : ChainT parseT server urlT tlT pagesT) (hfT : pagesT.length ≤ fuelT) :
    (get_all_playlists parseP server fuelP urlP).1 = chainTrace 2 urlP tlP ∧
    List.filterMap Event.sleepSecsOf (get_all_playlists parseP server fuelP urlP).1 =
      List.replicate (pagesP.length - 1) 2 ∧
    lastIsRequest (get_all_playlists parseP server fuelP urlP).1 = true ∧
    (get_playlist_tracks parseT server fuelT urlT).1 = chainTrace 1 urlT tlT ∧
    List.filterMap Event.sleepSecsOf (get_playlist_tracks parseT server fuelT urlT).1 =
      List.replicate (pagesT.length - 1) 1 ∧
    lastIsRequest (get_playlist_tracks parseT server fuelT urlT).1 = true := by
  have e1 := get_all_playlists_loop_chain hP fuelP hfP []
  have e2 := get_playlist_tracks_loop_chain hT fuelT hfT []
  unfold get_all_playlists get_playlist_tracks
  rw [e1, e2]
  refine ⟨rfl, ?_, chainTrace_last_request 2 urlP tlP, rfl, ?_,
    chainTrace_last_request 1 urlT tlT⟩
  · rw [chainP_length hP]
    simp [chainTrace_sleeps]
  · rw [chainT_length hT]
    simp [chainTrace_sleeps]

theorem rate_limit_delays_witness :
    ([pageP0, pageP1] : List PlaylistResponse).length ≤ 2 ∧
    ([pageT0, pageT1] : List PaginatedTrackResponse).length ≤ 2 ∧
    List.filterMap Event.sleepSecsOf (get_all_playlists parsePW serverW 2 "p0").1 =
      List.replicate (([pageP0, pageP1] : List PlaylistResponse).length - 1) 2 ∧
    List.filterMap Event.sleepSecsOf (get_playlist_tracks parseTW serverW 2 "t0").1 =
      List.replicate (([pageT0, pageT1] : List PaginatedTrackResponse).length - 1) 1 ∧
    lastIsRequest (get_playlist_tracks parseTW serverW 2 "t0").1 = true := by
  have h := rate_limit_delays parsePW parseTW serverW "p0" "t0" ["p1"] ["t1"]
    [pageP0, pageP1] [pageT0, pageT1] 2 2 chainPW (by decide) chainTW (by decide)
  exact ⟨by decide, by decide, h.2.1, h.2.2.2.2.1, h.2.2.2.2.2⟩

/-- C9: the playlist fetcher and the track fetcher are instances of the
one generic pagination algorithm `fetch_all_spec`, parameterized only by
the page-envelope decoder and the delay constant: on every transport,
decoder, fuel and start URL, each fetcher's accumulated result and
error (the second component) coincides with the corresponding instance
of `fetch_all_spec`. -/
theorem same_pagination_algorithm
    (parseP : String → Except String PlaylistResponse)
    (parseT : String → Except String PaginatedTrackResponse)
    (server : String → Nat × String) (fuel : Nat) (url : String) :
    (get_all_playlists parseP server fuel url).2 =
      (fetch_all_spec (fun s => Except.map (fun r => (r.items, r.next)) (parseP s))
        2 server fuel (some url) []).2 ∧
    (get_playlist_tracks parseT server fuel url).2 =
      (fetch_all_spec (fun s => Except.map (fun r => (r.items, r.next)) (parseT s))
        1 server fuel (some url) []).2 :=
  ⟨get_all_playlists_loop_spec parseP server fuel (some url) [],
   get_playlist_tracks_loop_spec parseT server fuel (some url) []⟩

/-- C6: when a track-page fetch fails while processing a playlist, the
run aborts with the request error carrying the status and response
body; the files written are exactly the complete files of the playlists
already finished plus, for the playlist in progress, a file holding only
the header (the track pages are all fetched before any data row is
written, so export is all-or-nothing per playlist), and nothing for the
playlists after it. -/
theorem fetch_failure_aborts
    (parse : String → Except String PaginatedTrackResponse)
    (server : String → Nat × String) (fuel : Nat) (now : String)
    (ps : List Playlist) (p : Playlist) (rest : List Playlist)
    (s : Nat) (b : String)
    (hdone : ∀ q ∈ ps, ∃ ts,
      (get_playlist_tracks parse server fuel q.tracks.href).2 =
        some (Except.ok ts))
    (hfail : (get_playlist_tracks parse server fuel p.tracks.href).2 =
      some (Except.error (FetchError.requestError s b))) :
    (export_to_csv parse server fuel now (ps ++ p :: rest)).2 =
      some (Except.error (FetchError.requestError s b)) ∧
    (export_to_csv parse server fuel now (ps ++ p :: rest)).1 =
      ps.map (fun q => (fileNameOf q,
        csvHeader :: okRowsOf parse server fuel now q)) ++
        [(fileNameOf p, [csvHeader])] := by
  induction ps with
  | nil =>
      constructor
      · simp [export_to_csv, hfail]
      · simp [export_to_csv, hfail]
  | cons q qs ih =>
      obtain ⟨ts, hts⟩ := hdone q (by simp)
      have ihh := ih (fun x hx => hdone x (by simp [hx]))
      constructor
      · simp [export_to_csv, hts, ihh.1]
      · simp [export_to_csv, hts, ihh.2, okRowsOf]

theorem fetch_failure_aborts_witness :
    (∀ q ∈ [plA], ∃ ts,
      (get_playlist_tracks parseTW serverW 2 q.tracks.href).2 =
        some (Except.ok ts)) ∧
    (get_playlist_tracks parseTW serverW 2 plB.tracks.href).2 =
      some (Except.error (FetchError.requestError 429 "rate limited")) ∧
    (export_to_csv parseTW serverW 2 "2024-01-01" ([plA] ++ plB :: [plC])).2 =
      some (Except.error (FetchError.requestError 429 "rate limited")) ∧
    (export_to_csv parseTW serverW 2 "2024-01-01" ([plA] ++ plB :: [plC])).1 =
      [plA].map (fun q => (fileNameOf q,
        csvHeader :: okRowsOf parseTW serverW 2 "2024-01-01" q)) ++
        [(fileNameOf plB, [csvHeader])] := by
  have hdone : ∀ q ∈ [plA], ∃ ts,
      (get_playlist_tracks parseTW serverW 2 q.tracks.href).2 =
        some (Except.ok ts) := by
    intro q hq
    simp at hq
    subst hq
    exact ⟨[ti1], rfl⟩
  have h := fetch_failure_aborts parseTW serverW 2 "2024-01-01" [plA] plB [plC]
    429 "rate limited" hdone rfl
  exact ⟨hdone, rfl, h.1, h.2⟩

end Rimusic
